import Mathlib

/-!
Shallow embedding of the SonaFlow firmware core: the BLE telemetry packet
codec (`src/components/ble_manager/ble_packet.cpp`), the application state
machine (`Application::SetState` and the per-state hooks), the streaming
session loop (`StreamingState`), and the audio feature extraction pipeline
(`AudioSource::GetFeature`).

Machine integers are embedded as `Nat` (unsigned) or `Int` (signed) with
explicit `% 2^w` at the points where the C++ types truncate.  A C++
`uint8_t` buffer becomes a `List Nat` whose elements carry the type
invariant `< 256` as an explicit hypothesis where it matters.
-/

namespace SonaFlow

/-- `esp_err_t` outcomes the embedded code distinguishes. -/
inductive EspErr
  | ok
  | fail
  | invalidArg
  | timeout
  | noMem
deriving DecidableEq, Repr

namespace ble

/-- `PacketConfig::kPacketSize` from `ble_packet.hpp`. -/
def kPacketSize : Nat := 10

/-- `PacketConfig::kHeaderSync` from `ble_packet.hpp`. -/
def kHeaderSync : Nat := 0xAA

/-- `PacketConfig::kDataTypeAudio` from `ble_packet.hpp`. -/
def kDataTypeAudio : Nat := 0x01

/-- `ble::AudioPacket` from `ble_packet.hpp`: `header`, `data_type`,
`checksum` are `uint8_t`; `sequence` is `uint16_t`; `timestamp` is
`uint32_t`; `payload` is `int8_t`. -/
structure AudioPacket where
  header : Nat
  data_type : Nat
  sequence : Nat
  timestamp : Nat
  payload : Int
  checksum : Nat
deriving DecidableEq, Repr

/-- The `uint8_t`/`uint16_t`/`uint32_t`/`int8_t` range invariants of the
fields of `ble::AudioPacket`. -/
def AudioPacket.WellFormed (p : AudioPacket) : Prop :=
  p.header < 256 ∧ p.data_type < 256 ∧ p.sequence < 2 ^ 16 ∧
    p.timestamp < 2 ^ 32 ∧ -128 ≤ p.payload ∧ p.payload < 128 ∧ p.checksum < 256

instance (p : AudioPacket) : Decidable p.WellFormed := by
  unfold AudioPacket.WellFormed; infer_instance

/-- `static_cast<uint8_t>` applied to an `int8_t` value: reduction mod 256
(two's complement). -/
def byteOfInt8 (p : Int) : Nat := (p % 256).toNat

/-- `static_cast<int8_t>` applied to a `uint8_t` value (two's complement). -/
def int8OfByte (b : Nat) : Int := if b < 128 then (b : Int) else (b : Int) - 256

/-- `PacketEncoder::CalculateChecksum` from `ble_packet.cpp`: XOR of all
bytes of the buffer, starting from 0. -/
def PacketEncoder.CalculateChecksum (data : List Nat) : Nat :=
  data.foldl (fun checksum b => checksum ^^^ b) 0

/-- `PacketEncoder::Encode` from `ble_packet.cpp`: serializes an
`AudioPacket` into the 10-byte wire frame; multi-byte fields big-endian,
byte 9 the XOR checksum of bytes 0-8. -/
def PacketEncoder.Encode (packet : AudioPacket) : List Nat :=
  let b0 := packet.header
  let b1 := packet.data_type
  let b2 := (packet.sequence >>> 8) &&& 0xFF
  let b3 := packet.sequence &&& 0xFF
  let b4 := (packet.timestamp >>> 24) &&& 0xFF
  let b5 := (packet.timestamp >>> 16) &&& 0xFF
  let b6 := (packet.timestamp >>> 8) &&& 0xFF
  let b7 := packet.timestamp &&& 0xFF
  let b8 := byteOfInt8 packet.payload
  let body := [b0, b1, b2, b3, b4, b5, b6, b7, b8]
  body ++ [PacketEncoder.CalculateChecksum body]

/-- `PacketDecoder::ValidatePacket` from `ble_packet.cpp`: size must be 10,
byte 0 must be the sync byte, and the XOR of bytes 0-8 must equal byte 9.
The two data reads happen only after the length check succeeds. -/
def PacketDecoder.ValidatePacket (data : List Nat) : Bool :=
  if data.length ≠ kPacketSize then
    false
  else if data.getD 0 0 ≠ kHeaderSync then
    false
  else
    PacketEncoder.CalculateChecksum (data.take (kPacketSize - 1)) =
      data.getD (kPacketSize - 1) 0

/-- `PacketDecoder::Decode` from `ble_packet.cpp`: returns `none` when
`ValidatePacket` fails (the C++ returns `false` with the out-parameter
unwritten), otherwise the reconstructed record. -/
def PacketDecoder.Decode (data : List Nat) : Option AudioPacket :=
  if ¬ PacketDecoder.ValidatePacket data then
    none
  else
    some
      { header := data.getD 0 0
        data_type := data.getD 1 0
        sequence := (data.getD 2 0 <<< 8) ||| data.getD 3 0
        timestamp :=
          (data.getD 4 0 <<< 24) ||| (data.getD 5 0 <<< 16) |||
            (data.getD 6 0 <<< 8) ||| data.getD 7 0
        payload := int8OfByte (data.getD 8 0)
        checksum := data.getD 9 0 }

/-- The spec's `DecodeError` taxonomy.  Each constructor names one of the
three sequential early-`return false` sites of `ValidatePacket`. -/
inductive DecodeError
  | LengthMismatch
  | SyncMismatch
  | ChecksumMismatch
deriving DecidableEq, Repr

/-- `PacketDecoder::Decode` with each rejection tagged by the validation
check that produced it, in the order the checks run in `ValidatePacket`.
Agrees with `PacketDecoder.Decode` (see `decodeClassified_ok_iff`). -/
def decodeClassified (data : List Nat) : Except DecodeError AudioPacket :=
  if data.length ≠ kPacketSize then
    .error .LengthMismatch
  else if data.getD 0 0 ≠ kHeaderSync then
    .error .SyncMismatch
  else if PacketEncoder.CalculateChecksum (data.take (kPacketSize - 1)) ≠
      data.getD (kPacketSize - 1) 0 then
    .error .ChecksumMismatch
  else
    .ok
      { header := data.getD 0 0
        data_type := data.getD 1 0
        sequence := (data.getD 2 0 <<< 8) ||| data.getD 3 0
        timestamp :=
          (data.getD 4 0 <<< 24) ||| (data.getD 5 0 <<< 16) |||
            (data.getD 6 0 <<< 8) ||| data.getD 7 0
        payload := int8OfByte (data.getD 8 0)
        checksum := data.getD 9 0 }

end ble

namespace app

/-- `app::AppState` from `state_base.hpp`. -/
inductive AppState
  | kUninitialized
  | kInitializing
  | kWaitingForConnection
  | kConnectedIdle
  | kStreamingAudio
  | kFatalError
deriving DecidableEq, Repr

/-- The mutable data of the `Application` state machine that the embedded
claims observe: the enum of the state object `current_state_` points to,
`StreamingState::sequence_number_` (a `uint16_t`, invariant `< 2^16`), and
`FatalErrorState::led_on_`. -/
structure Machine where
  current : AppState
  sequence_number : Nat
  led_on : Bool
deriving DecidableEq, Repr

/-- A virtual hook invocation performed by `Application::SetState`. -/
inductive HookCall
  | onExit (s : AppState)
  | onEnter (s : AppState)
deriving DecidableEq, Repr

/-- The `switch (new_state_enum)` of `Application::SetState`: the enum of
the state object selected as `new_state`; the `default` branch selects
`fatal_error_state_`. -/
def resolveTargetState : AppState → AppState
  | .kWaitingForConnection => .kWaitingForConnection
  | .kConnectedIdle => .kConnectedIdle
  | .kStreamingAudio => .kStreamingAudio
  | .kFatalError => .kFatalError
  | _ => .kFatalError

/-- An LED call made through `led::LEDManager`. -/
inductive LedCall
  | setAndRefreshColor (i r g b : Nat)
  | turnOff
deriving DecidableEq, Repr

/-- The `OnEnter` hook of the state selected by `SetState`, restricted to
its effect on `Machine`: `StreamingState::OnEnter` resets
`sequence_number_` to 0; `FatalErrorState::OnEnter` sets `led_on_ = true`;
the other states' `OnEnter` bodies only drive the LED / BLE collaborators
and touch no `Machine` field. -/
def applyOnEnter (s : AppState) (m : Machine) : Machine :=
  match s with
  | .kStreamingAudio => { m with sequence_number := 0 }
  | .kFatalError => { m with led_on := true }
  | _ => m

/-- `Application::SetState` from `application.cpp`: under the lock, an
early return when the current state's enum equals the target (no hooks, no
mutation); otherwise the switch resolves the new state object (default:
`fatal_error_state_`), the pointer is swapped, and after releasing the
lock `old_state->OnExit()` then `new_state->OnEnter()` run.  `OnExit` is
the no-op `StateBase::OnExit` for every state (no state overrides it).
The returned list records the hook invocations in order. -/
def Application.SetState (m : Machine) (new_state_enum : AppState) :
    Machine × List HookCall :=
  if m.current = new_state_enum then
    (m, [])
  else
    let next := resolveTargetState new_state_enum
    (applyOnEnter next { m with current := next },
      [HookCall.onExit m.current, HookCall.onEnter next])

/-- One tick's worth of collaborator inputs to `StreamingState::Execute`:
the result of `BLEManager::IsConnected()`, the result of
`AudioSource::GetFeature` (`some feature` on `ESP_OK`, `none` on error),
and `esp_timer_get_time()` in microseconds. -/
structure ExecInput where
  connected : Bool
  audio : Option Int
  time_us : Nat
deriving DecidableEq, Repr

/-- `FatalErrorState::Execute` (the blinking variant): drives the LED
according to `led_on_`, toggles `led_on_`, delays; it never calls
`Application::SetState`.  Returns the updated machine, the LED calls
made, and the (absent) transition request. -/
def FatalErrorState.Execute (m : Machine) :
    Machine × List LedCall × Option AppState :=
  ({ m with led_on := !m.led_on },
    if m.led_on then [LedCall.setAndRefreshColor 0 255 0 0] else [LedCall.turnOff],
    none)

/-- `StreamingState::Execute` from `streaming_state.cpp`: if BLE is
disconnected, call `Application::SetState(kWaitingForConnection)` and
return; if `GetFeature` failed, delay and return; otherwise build an
`AudioPacket` from `sequence_number_++` (16-bit wraparound), the current
time in ms truncated to `uint32_t`, the feature, and `checksum = 0`, and
hand it to `SendAudioPacket`.  Returns the machine, the hooks run by any
transition, and the packet handed to the BLE manager. -/
def StreamingState.Execute (m : Machine) (inp : ExecInput) :
    Machine × List HookCall × Option ble.AudioPacket :=
  if inp.connected = false then
    let r := Application.SetState m AppState.kWaitingForConnection
    (r.1, r.2, none)
  else
    match inp.audio with
    | none => (m, [], none)
    | some feature =>
        let packet : ble.AudioPacket :=
          { header := ble.kHeaderSync
            data_type := ble.kDataTypeAudio
            sequence := m.sequence_number
            timestamp := (inp.time_us / 1000) % 2 ^ 32
            payload := feature
            checksum := 0 }
        ({ m with sequence_number := (m.sequence_number + 1) % 2 ^ 16 },
          [], some packet)

/-- Repeated invocation of `StreamingState::Execute` by the main task over
a list of per-tick inputs, collecting the packets handed to the BLE
manager. -/
def runStreaming (m : Machine) : List ExecInput → List ble.AudioPacket
  | [] => []
  | inp :: rest =>
      let r := StreamingState.Execute m inp
      r.2.2.toList ++ runStreaming r.1 rest

/-- A call observable from `WaitingForConnectionState::OnEnter`. -/
inductive WaitingCall
  | ledSetAndRefreshColor (i r g b : Nat)
  | startAdvertising
deriving DecidableEq, Repr

/-- `WaitingForConnectionState::OnEnter` from `waiting_state.cpp`: sets the
LED, and if `BLEManager::IsAdvertising()` is false calls
`StartAdvertising()` as a bare expression statement.  The hook's C++
return type is `void`; the model's result is the list of calls made
together with that `Unit` return value.  `start_result` is the
`esp_err_t` produced by `BLEManager::StartAdvertising` — the source
discards it, so it does not occur in the body. -/
def WaitingForConnectionState.OnEnter (is_advertising : Bool)
    (_start_result : EspErr) : List WaitingCall × Unit :=
  (WaitingCall.ledSetAndRefreshColor 0 0 0 64 ::
    (if is_advertising = false then [WaitingCall.startAdvertising] else []),
    ())

end app

namespace audio

/-- `kMaxAudioSamples` from `audio_source.cpp`. -/
def kMaxAudioSamples : Nat := 256

/-- `kReferenceRms` from `audio_source.cpp`. -/
def kReferenceRms : ℚ := 20

/-- `kMaxDbLevel` from `audio_source.cpp`. -/
def kMaxDbLevel : ℚ := 96

/-- `std::clamp(v, lo, hi)`: `v < lo ? lo : (hi < v ? hi : v)`. -/
def clampQ (v lo hi : ℚ) : ℚ := if v < lo then lo else if hi < v then hi else v

/-- `AudioSource::GetFeature` from `audio_source.cpp`.  The floating-point
`std::sqrt` and `std::log10` are abstracted as the oracle parameters
`sqrtD` and `log10D` (every theorem below holds for every choice, so in
particular for the doubles the hardware computes); the remaining
arithmetic is exact.  `read_ret` and `samples` are the outcome of the
internal `Read` call: on a non-`ESP_OK` result or zero samples read the
feature is set to 0 and the read's result is returned.  The final
`static_cast<int8_t>` truncates toward zero; the cast operand is the
result of `std::clamp(scaled, 0, 127)` and hence non-negative, so the
truncation is `Int.floor`. -/
def AudioSource.GetFeature (sqrtD log10D : ℚ → ℚ) (read_ret : EspErr)
    (samples : List Int) : EspErr × Int :=
  if read_ret ≠ EspErr.ok ∨ samples.length = 0 then
    (read_ret, 0)
  else
    let sum_of_squares : Int := (samples.map fun s => s * s).sum
    let rms_value : ℚ := sqrtD ((sum_of_squares : ℚ) / (samples.length : ℚ))
    let db_value : ℚ := 20 * log10D (max rms_value kReferenceRms / kReferenceRms)
    let scaled_feature : ℚ := db_value / kMaxDbLevel * 127
    let clamped_feature : ℚ := clampQ scaled_feature 0 127
    (EspErr.ok, Int.floor clamped_feature)

end audio

/-! ## Supporting lemmas about the packet codec -/

namespace ble

lemma and_255_eq_mod (x : Nat) : x &&& 0xFF = x % 256 := by
  have h : (0xFF : Nat) = 2 ^ 8 - 1 := by norm_num
  rw [h, Nat.and_pow_two_sub_one_eq_mod]

lemma shiftRight_and_255 (x n : Nat) : (x >>> n) &&& 0xFF = x / 2 ^ n % 256 := by
  rw [Nat.shiftRight_eq_div_pow, and_255_eq_mod]

lemma shiftLeft_or_eq {b : Nat} (a n : Nat) (hb : b < 2 ^ n) :
    (a <<< n) ||| b = a * 2 ^ n + b := by
  rw [Nat.shiftLeft_eq, Nat.mul_comm, ← Nat.mul_add_lt_is_or hb, Nat.mul_comm]

lemma foldl_xor_lt (l : List Nat) :
    ∀ acc, acc < 256 → (∀ b ∈ l, b < 256) →
      l.foldl (fun checksum b => checksum ^^^ b) acc < 256 := by
  induction l with
  | nil => intro acc hacc _; simpa using hacc
  | cons hd tl ih =>
      intro acc hacc hmem
      simp only [List.foldl_cons]
      exact ih _ (Nat.xor_lt_two_pow (n := 8) hacc (hmem hd (by simp)))
        fun b hb => hmem b (by simp [hb])

lemma calculateChecksum_lt (l : List Nat) (h : ∀ b ∈ l, b < 256) :
    PacketEncoder.CalculateChecksum l < 256 :=
  foldl_xor_lt l 0 (by norm_num) h

lemma byteOfInt8_lt (p : Int) : byteOfInt8 p < 256 := by
  unfold byteOfInt8
  omega

lemma int8OfByte_byteOfInt8 (p : Int) (h1 : -128 ≤ p) (h2 : p < 128) :
    int8OfByte (byteOfInt8 p) = p := by
  unfold int8OfByte byteOfInt8
  split_ifs <;> omega

/-- The nine data bytes of the wire frame, before the checksum byte. -/
def encodeBody (p : AudioPacket) : List Nat :=
  [p.header, p.data_type, p.sequence / 256, p.sequence % 256,
    p.timestamp / 2 ^ 24, p.timestamp / 2 ^ 16 % 256, p.timestamp / 2 ^ 8 % 256,
    p.timestamp % 256, byteOfInt8 p.payload]

lemma encode_eq_bytes (p : AudioPacket) (h : p.WellFormed) :
    PacketEncoder.Encode p =
      encodeBody p ++ [PacketEncoder.CalculateChecksum (encodeBody p)] := by
  obtain ⟨-, -, hseq, hts, -, -, -⟩ := h
  have h2 : (p.sequence >>> 8) &&& 0xFF = p.sequence / 256 := by
    rw [shiftRight_and_255]
    have : p.sequence / 2 ^ 8 < 256 := by omega
    omega
  have h3 : p.sequence &&& 0xFF = p.sequence % 256 := and_255_eq_mod _
  have h4 : (p.timestamp >>> 24) &&& 0xFF = p.timestamp / 2 ^ 24 := by
    rw [shiftRight_and_255]
    have : p.timestamp / 2 ^ 24 < 256 := by omega
    omega
  have h5 : (p.timestamp >>> 16) &&& 0xFF = p.timestamp / 2 ^ 16 % 256 :=
    shiftRight_and_255 _ _
  have h6 : (p.timestamp >>> 8) &&& 0xFF = p.timestamp / 2 ^ 8 % 256 :=
    shiftRight_and_255 _ _
  have h7 : p.timestamp &&& 0xFF = p.timestamp % 256 := and_255_eq_mod _
  simp only [PacketEncoder.Encode, h2, h3, h4, h5, h6, h7, encodeBody]

lemma encodeBody_mem_lt (p : AudioPacket) (h : p.WellFormed) :
    ∀ b ∈ encodeBody p, b < 256 := by
  obtain ⟨hh, hd, hseq, hts, -, -, -⟩ := h
  intro b hb
  simp only [encodeBody, List.mem_cons, List.not_mem_nil, or_false] at hb
  have hb8 := byteOfInt8_lt p.payload
  have : p.sequence / 256 < 256 := by omega
  have : p.timestamp / 2 ^ 24 < 256 := by omega
  rcases hb with rfl | rfl | rfl | rfl | rfl | rfl | rfl | rfl | rfl <;> omega

lemma seq_recompose (s : Nat) :
    ((s / 256) <<< 8) ||| s % 256 = s := by
  rw [shiftLeft_or_eq _ 8 (by omega : s % 256 < 2 ^ 8)]
  omega

lemma ts_recompose (t : Nat) :
    ((t / 2 ^ 24) <<< 24) ||| ((t / 2 ^ 16 % 256) <<< 16) |||
      ((t / 2 ^ 8 % 256) <<< 8) ||| t % 256 = t := by
  rw [Nat.or_assoc, Nat.or_assoc,
    shiftLeft_or_eq _ 8 (by omega : t % 256 < 2 ^ 8),
    shiftLeft_or_eq _ 16
      (by omega : t / 2 ^ 8 % 256 * 2 ^ 8 + t % 256 < 2 ^ 16),
    shiftLeft_or_eq _ 24
      (by omega :
        t / 2 ^ 16 % 256 * 2 ^ 16 + (t / 2 ^ 8 % 256 * 2 ^ 8 + t % 256) < 2 ^ 24)]
  omega

lemma seq_compose_bytes (b2 b3 : Nat) (h3 : b3 < 256) :
    (b2 <<< 8) ||| b3 = 2 ^ 8 * b2 + b3 := by
  rw [shiftLeft_or_eq _ 8 (by omega : b3 < 2 ^ 8)]
  ring

lemma ts_compose_bytes (b4 b5 b6 b7 : Nat) (h5 : b5 < 256) (h6 : b6 < 256)
    (h7 : b7 < 256) :
    (b4 <<< 24) ||| (b5 <<< 16) ||| (b6 <<< 8) ||| b7 =
      2 ^ 24 * b4 + 2 ^ 16 * b5 + 2 ^ 8 * b6 + b7 := by
  rw [Nat.or_assoc, Nat.or_assoc,
    shiftLeft_or_eq _ 8 (by omega : b7 < 2 ^ 8),
    shiftLeft_or_eq _ 16 (by omega : b6 * 2 ^ 8 + b7 < 2 ^ 16),
    shiftLeft_or_eq _ 24
      (by omega : b5 * 2 ^ 16 + (b6 * 2 ^ 8 + b7) < 2 ^ 24)]
  ring

lemma decodeClassified_ok_iff (bs : List Nat) (p : AudioPacket) :
    decodeClassified bs = Except.ok p ↔ PacketDecoder.Decode bs = some p := by
  unfold decodeClassified PacketDecoder.Decode PacketDecoder.ValidatePacket
  split_ifs with h1 h2 h3 <;> simp_all

lemma decode_length_ne (bs : List Nat) (h : bs.length ≠ 10) :
    decodeClassified bs = Except.error DecodeError.LengthMismatch ∧
      PacketDecoder.Decode bs = none := by
  unfold decodeClassified PacketDecoder.Decode PacketDecoder.ValidatePacket
  simp [kPacketSize, h]

lemma decode_cons10_ok (b0 b1 b2 b3 b4 b5 b6 b7 b8 b9 : Nat)
    (hsync : b0 = kHeaderSync)
    (hchk : PacketEncoder.CalculateChecksum [b0, b1, b2, b3, b4, b5, b6, b7, b8] = b9) :
    PacketDecoder.Decode [b0, b1, b2, b3, b4, b5, b6, b7, b8, b9] =
      some
        { header := b0, data_type := b1, sequence := (b2 <<< 8) ||| b3,
          timestamp := (b4 <<< 24) ||| (b5 <<< 16) ||| (b6 <<< 8) ||| b7,
          payload := int8OfByte b8, checksum := b9 } := by
  subst hsync
  unfold PacketDecoder.Decode PacketDecoder.ValidatePacket
  simp [kPacketSize, List.getD, hchk]

lemma decodeClassified_cons10_ok (b0 b1 b2 b3 b4 b5 b6 b7 b8 b9 : Nat)
    (hsync : b0 = kHeaderSync)
    (hchk : PacketEncoder.CalculateChecksum [b0, b1, b2, b3, b4, b5, b6, b7, b8] = b9) :
    decodeClassified [b0, b1, b2, b3, b4, b5, b6, b7, b8, b9] =
      Except.ok
        { header := b0, data_type := b1, sequence := (b2 <<< 8) ||| b3,
          timestamp := (b4 <<< 24) ||| (b5 <<< 16) ||| (b6 <<< 8) ||| b7,
          payload := int8OfByte b8, checksum := b9 } := by
  subst hsync
  unfold decodeClassified
  simp [kPacketSize, List.getD, hchk]

end ble

/-! ## Claims about the packet codec -/

open ble in
/-- C1 (counterexample): the round-trip law fails for a record that is
valid in the claim's sense (sync header, all fields in their declared
ranges) but whose `checksum` field is not the XOR of the first nine
encoded bytes: `Encode` recomputes byte 9 and `Decode` returns that
recomputed value, so the decoded record differs from the input in the
`checksum` field. -/
theorem C1_roundtrip_counterexample :
    AudioPacket.WellFormed
      { header := 0xAA, data_type := 0x01, sequence := 0, timestamp := 0,
        payload := 0, checksum := 1 } ∧
    PacketDecoder.Decode
        (PacketEncoder.Encode
          { header := 0xAA, data_type := 0x01, sequence := 0, timestamp := 0,
            payload := 0, checksum := 1 }) =
      some
        { header := 0xAA, data_type := 0x01, sequence := 0, timestamp := 0,
          payload := 0, checksum := 0xAB } ∧
    PacketDecoder.Decode
        (PacketEncoder.Encode
          { header := 0xAA, data_type := 0x01, sequence := 0, timestamp := 0,
            payload := 0, checksum := 1 }) ≠
      some
        { header := 0xAA, data_type := 0x01, sequence := 0, timestamp := 0,
          payload := 0, checksum := 1 } := by
  decide

open ble in
/-- C1 (amended): for every record with the sync header, fields in their
declared ranges, and a `checksum` field equal to the XOR of bytes 0-8 of
its encoding (the `WireFrame` invariant), decoding the encoded frame
succeeds and returns the record unchanged in every field, including the
checksum field. -/
theorem C1_roundtrip (r : AudioPacket) (hwf : r.WellFormed)
    (hsync : r.header = kHeaderSync)
    (hchk : r.checksum =
      PacketEncoder.CalculateChecksum ((PacketEncoder.Encode r).take 9)) :
    PacketDecoder.Decode (PacketEncoder.Encode r) = some r := by
  have hb := encode_eq_bytes r hwf
  rw [hb] at hchk
  have htake :
      (encodeBody r ++ [PacketEncoder.CalculateChecksum (encodeBody r)]).take 9 =
        encodeBody r := by
    simp [encodeBody]
  rw [htake] at hchk
  obtain ⟨hh, hd, hseq, hts, hp1, hp2, hc⟩ := hwf
  rw [hb]
  have hlist :
      encodeBody r ++ [PacketEncoder.CalculateChecksum (encodeBody r)] =
        [r.header, r.data_type, r.sequence / 256, r.sequence % 256,
          r.timestamp / 2 ^ 24, r.timestamp / 2 ^ 16 % 256,
          r.timestamp / 2 ^ 8 % 256, r.timestamp % 256, byteOfInt8 r.payload,
          PacketEncoder.CalculateChecksum (encodeBody r)] := by
    simp [encodeBody]
  rw [hlist]
  rw [decode_cons10_ok _ _ _ _ _ _ _ _ _ _ hsync (by simp [encodeBody])]
  rw [Option.some_inj, seq_recompose, ts_recompose,
    int8OfByte_byteOfInt8 _ hp1 hp2, ← hchk]

open ble in
/-- C1 (witness for the amended round-trip law): the concrete valid record
with the sync header, sequence 1, timestamp 1000, payload 42 and the
correct checksum field 0x6B round-trips exactly. -/
theorem C1_roundtrip_witness :
    PacketDecoder.Decode
        (PacketEncoder.Encode
          { header := 0xAA, data_type := 0x01, sequence := 1, timestamp := 1000,
            payload := 42, checksum := 0x6B }) =
      some
        { header := 0xAA, data_type := 0x01, sequence := 1, timestamp := 1000,
          payload := 42, checksum := 0x6B } :=
  C1_roundtrip _ (by decide) (by decide) (by decide)

open ble in
/-- C2: `Encode` is total and always yields exactly the 10-byte big-endian
layout `[header, type, seq_hi, seq_lo, ts_b3, ts_b2, ts_b1, ts_b0,
payload, checksum]` with byte 9 the XOR of bytes 0-8; the concrete record
`{seq=1, ts=1000, payload=42}` with sync header and audio type encodes to
`[0xAA,0x01,0x00,0x01,0x00,0x00,0x03,0xE8,0x2A,0x6B]`, `0x6B` being the
XOR of the preceding nine bytes. -/
theorem C2_encode_layout (p : AudioPacket) (h : p.WellFormed) :
    (PacketEncoder.Encode p).length = 10 ∧
    PacketEncoder.Encode p =
      [p.header, p.data_type, p.sequence / 256, p.sequence % 256,
        p.timestamp / 2 ^ 24, p.timestamp / 2 ^ 16 % 256,
        p.timestamp / 2 ^ 8 % 256, p.timestamp % 256, byteOfInt8 p.payload,
        PacketEncoder.CalculateChecksum
          [p.header, p.data_type, p.sequence / 256, p.sequence % 256,
            p.timestamp / 2 ^ 24, p.timestamp / 2 ^ 16 % 256,
            p.timestamp / 2 ^ 8 % 256, p.timestamp % 256,
            byteOfInt8 p.payload]] ∧
    (PacketEncoder.Encode p).getD 9 0 =
      PacketEncoder.CalculateChecksum ((PacketEncoder.Encode p).take 9) ∧
    PacketEncoder.Encode
        { header := kHeaderSync, data_type := kDataTypeAudio, sequence := 1,
          timestamp := 1000, payload := 42, checksum := 0 } =
      [0xAA, 0x01, 0x00, 0x01, 0x00, 0x00, 0x03, 0xE8, 0x2A, 0x6B] ∧
    (0x6B : Nat) =
      PacketEncoder.CalculateChecksum
        [0xAA, 0x01, 0x00, 0x01, 0x00, 0x00, 0x03, 0xE8, 0x2A] := by
  have hb := encode_eq_bytes p h
  refine ⟨?_, ?_, ?_, by decide, by decide⟩
  · rw [hb]; simp [encodeBody]
  · rw [hb]; simp [encodeBody]
  · rw [hb]; simp [encodeBody, List.getD]

open ble in
/-- C2 (witness): the layout law instantiated at the concrete record
`{seq=1, ts=1000, payload=42}`. -/
theorem C2_encode_layout_witness :
    AudioPacket.WellFormed
      { header := 0xAA, data_type := 0x01, sequence := 1, timestamp := 1000,
        payload := 42, checksum := 0 } ∧
    (PacketEncoder.Encode
        { header := 0xAA, data_type := 0x01, sequence := 1, timestamp := 1000,
          payload := 42, checksum := 0 }).length = 10 :=
  ⟨by decide, (C2_encode_layout _ (by decide)).1⟩

open ble in
/-- C3: `Decode` (and its error-classified form, which tags the three
sequential rejection sites of `ValidatePacket`) rejects every buffer whose
length is not 10 with `LengthMismatch` — regardless of the buffer's
contents, so no byte is ever inspected for such buffers; rejects length-10
buffers whose byte 0 is not the sync constant with `SyncMismatch`; rejects
length-10 buffers whose XOR over bytes 0-8 differs from byte 9 with
`ChecksumMismatch`; and otherwise succeeds, reconstructing every record
field from the big-endian layout.  The classified form agrees with the
source's boolean `Decode` on success. -/
theorem C3_decode_errors :
    (∀ bs : List Nat, bs.length ≠ 10 →
      decodeClassified bs = Except.error DecodeError.LengthMismatch ∧
        PacketDecoder.Decode bs = none) ∧
    (∀ bs bs' : List Nat, bs.length = bs'.length → bs.length ≠ 10 →
      decodeClassified bs = decodeClassified bs') ∧
    (∀ b0 b1 b2 b3 b4 b5 b6 b7 b8 b9 : Nat, b0 ≠ kHeaderSync →
      decodeClassified [b0, b1, b2, b3, b4, b5, b6, b7, b8, b9] =
        Except.error DecodeError.SyncMismatch) ∧
    (∀ b0 b1 b2 b3 b4 b5 b6 b7 b8 b9 : Nat, b0 = kHeaderSync →
      PacketEncoder.CalculateChecksum [b0, b1, b2, b3, b4, b5, b6, b7, b8] ≠ b9 →
      decodeClassified [b0, b1, b2, b3, b4, b5, b6, b7, b8, b9] =
        Except.error DecodeError.ChecksumMismatch) ∧
    (∀ b0 b1 b2 b3 b4 b5 b6 b7 b8 b9 : Nat, b0 = kHeaderSync →
      PacketEncoder.CalculateChecksum [b0, b1, b2, b3, b4, b5, b6, b7, b8] = b9 →
      b3 < 256 → b5 < 256 → b6 < 256 → b7 < 256 →
      decodeClassified [b0, b1, b2, b3, b4, b5, b6, b7, b8, b9] =
        Except.ok
          { header := b0, data_type := b1, sequence := 2 ^ 8 * b2 + b3,
            timestamp := 2 ^ 24 * b4 + 2 ^ 16 * b5 + 2 ^ 8 * b6 + b7,
            payload := int8OfByte b8, checksum := b9 }) ∧
    (∀ (bs : List Nat) (p : AudioPacket),
      decodeClassified bs = Except.ok p ↔ PacketDecoder.Decode bs = some p) := by
  refine ⟨fun bs h => decode_length_ne bs h, ?_, ?_, ?_, ?_,
    fun bs p => decodeClassified_ok_iff bs p⟩
  · intro bs bs' hlen h
    rw [(decode_length_ne bs h).1, (decode_length_ne bs' (hlen ▸ h)).1]
  · intro b0 b1 b2 b3 b4 b5 b6 b7 b8 b9 hsync
    unfold decodeClassified
    simp [kPacketSize, List.getD, hsync]
  · intro b0 b1 b2 b3 b4 b5 b6 b7 b8 b9 hsync hchk
    subst hsync
    unfold decodeClassified
    simp [kPacketSize, List.getD, hchk]
  · intro b0 b1 b2 b3 b4 b5 b6 b7 b8 b9 hsync hchk h3 h5 h6 h7
    rw [decodeClassified_cons10_ok _ _ _ _ _ _ _ _ _ _ hsync hchk,
      seq_compose_bytes _ _ h3, ts_compose_bytes _ _ _ _ h5 h6 h7]

open ble in
/-- C3 (witness): each branch of the decode-error theorem exercised at a
concrete buffer: a 3-byte buffer, a wrong-sync 10-byte buffer, a
bad-checksum 10-byte buffer, and the valid concrete frame from the spec's
scenario. -/
theorem C3_decode_errors_witness :
    decodeClassified [1, 2, 3] = Except.error DecodeError.LengthMismatch ∧
    decodeClassified [0xAB, 0x01, 0, 1, 0, 0, 3, 0xE8, 0x2A, 0x6B] =
      Except.error DecodeError.SyncMismatch ∧
    decodeClassified [0xAA, 0x01, 0, 1, 0, 0, 3, 0xE8, 0x2A, 0x6C] =
      Except.error DecodeError.ChecksumMismatch ∧
    decodeClassified [0xAA, 0x01, 0, 1, 0, 0, 3, 0xE8, 0x2A, 0x6B] =
      Except.ok
        { header := 0xAA, data_type := 0x01, sequence := 1, timestamp := 1000,
          payload := 42, checksum := 0x6B } :=
  ⟨(C3_decode_errors.1 [1, 2, 3] (by decide)).1,
    C3_decode_errors.2.2.1 0xAB 0x01 0 1 0 0 3 0xE8 0x2A 0x6B (by decide),
    C3_decode_errors.2.2.2.1 0xAA 0x01 0 1 0 0 3 0xE8 0x2A 0x6C (by decide)
      (by decide),
    by
      have h := C3_decode_errors.2.2.2.2.1 0xAA 0x01 0 1 0 0 3 0xE8 0x2A 0x6B
        (by decide) (by decide) (by decide) (by decide) (by decide) (by decide)
      rw [h]
      norm_num [int8OfByte]⟩

open ble in
/-- C10: the encoded wire frame is independent of the `checksum` field of
the input record (`Encode` recomputes byte 9 and never reads the field),
and the streaming producer constructs every packet it hands to the BLE
manager with the `checksum` field set to 0. -/
theorem C10_encode_checksum_independent :
    (∀ (h t s ts : Nat) (pl : Int) (c c' : Nat),
      PacketEncoder.Encode
          { header := h, data_type := t, sequence := s, timestamp := ts,
            payload := pl, checksum := c } =
        PacketEncoder.Encode
          { header := h, data_type := t, sequence := s, timestamp := ts,
            payload := pl, checksum := c' }) ∧
    (∀ (m : app.Machine) (inp : app.ExecInput),
      ((app.StreamingState.Execute m inp).2.2.all
        fun pkt => pkt.checksum == 0) = true) := by
  constructor
  · intro h t s ts pl c c'
    rfl
  · intro m inp
    obtain ⟨c, a, tm⟩ := inp
    unfold app.StreamingState.Execute
    cases c <;> cases a <;> simp [Option.all]

/-! ## Supporting lemmas about the state machine and streaming sessions -/

namespace app

lemma runStreaming_map_seq (inputs : List ExecInput) :
    ∀ m : Machine, m.sequence_number < 2 ^ 16 →
      (∀ i ∈ inputs, i.connected = true) →
      (runStreaming m inputs).map ble.AudioPacket.sequence =
        (List.range (runStreaming m inputs).length).map
          (fun k => (m.sequence_number + k) % 2 ^ 16) := by
  induction inputs with
  | nil => intro m _ _; simp [runStreaming]
  | cons inp rest ih =>
      intro m hm hconn
      have hc : inp.connected = true := hconn inp (by simp)
      have hrest : ∀ i ∈ rest, i.connected = true := fun i hi =>
        hconn i (by simp [hi])
      cases ha : inp.audio with
      | none =>
          have hstep :
              runStreaming m (inp :: rest) = runStreaming m rest := by
            simp [runStreaming, StreamingState.Execute, hc, ha]
          rw [hstep]
          exact ih m hm hrest
      | some f =>
          have hstep :
              runStreaming m (inp :: rest) =
                { header := ble.kHeaderSync, data_type := ble.kDataTypeAudio,
                  sequence := m.sequence_number,
                  timestamp := (inp.time_us / 1000) % 2 ^ 32,
                  payload := f, checksum := 0 } ::
                runStreaming
                  { m with sequence_number := (m.sequence_number + 1) % 2 ^ 16 }
                  rest := by
            simp [runStreaming, StreamingState.Execute, hc, ha]
          rw [hstep]
          have htail := ih
            { m with sequence_number := (m.sequence_number + 1) % 2 ^ 16 }
            (Nat.mod_lt _ (by norm_num)) hrest
          simp only [List.map_cons, List.length_cons, htail]
          rw [List.range_succ_eq_map]
          simp only [List.map_cons, List.map_map]
          rw [List.cons_eq_cons]
          refine ⟨by omega, List.map_congr_left fun k _ => ?_⟩
          simp only [Function.comp_apply]
          omega

lemma chain_mod_range (w n : Nat) :
    List.Chain' (fun a b => b = (a + 1) % w) ((List.range n).map (· % w)) := by
  rw [List.chain'_iff_get]
  intro i h
  simp only [List.get_eq_getElem, List.getElem_map, List.getElem_range]
  rw [Nat.mod_add_mod]

lemma nodup_mod_range (w n : Nat) (h : n ≤ w) :
    ((List.range n).map (· % w)).Nodup := by
  have heq : (List.range n).map (· % w) = (List.range n).map (fun k => k) :=
    List.map_congr_left fun k hk => Nat.mod_eq_of_lt
      (lt_of_lt_of_le (List.mem_range.mp hk) h)
  rw [heq]
  simpa using List.nodup_range n

end app

/-! ## Claims about the state machine, streaming, audio and waiting state -/

/-- C4: `StreamingState::OnEnter` resets the session sequence counter to 0,
and over any streaming session in which the connection stays up, the
packets built carry sequence values `0, 1, ..., N-1 mod 65536`: the i-th
packet's sequence is `i % 2^16`, consecutive packets differ by exactly one
modulo `2^16` (no gaps), and as long as at most `2^16` packets are
produced there are no duplicates. -/
theorem C4_sequence_numbers (m : app.Machine) (inputs : List app.ExecInput)
    (hm : m.sequence_number = 0)
    (hconn : ∀ i ∈ inputs, i.connected = true) :
    (app.applyOnEnter app.AppState.kStreamingAudio m).sequence_number = 0 ∧
    (app.runStreaming m inputs).map ble.AudioPacket.sequence =
      (List.range (app.runStreaming m inputs).length).map (· % 2 ^ 16) ∧
    List.Chain' (fun a b => b = (a + 1) % 2 ^ 16)
      ((app.runStreaming m inputs).map ble.AudioPacket.sequence) ∧
    ((app.runStreaming m inputs).length ≤ 2 ^ 16 →
      ((app.runStreaming m inputs).map ble.AudioPacket.sequence).Nodup) := by
  have hmap := app.runStreaming_map_seq inputs m (by omega) hconn
  rw [hm] at hmap
  simp only [Nat.zero_add] at hmap
  refine ⟨rfl, hmap, ?_, ?_⟩
  · rw [hmap]
    exact app.chain_mod_range (2 ^ 16) _
  · intro hlen
    rw [hmap]
    exact app.nodup_mod_range (2 ^ 16) _ hlen

/-- C4 (witness): a concrete three-tick session (two successful reads, one
audio failure in between) produces sequences `[0, 1]`. -/
theorem C4_sequence_numbers_witness :
    (∀ i ∈ ([{ connected := true, audio := some 5, time_us := 100000 },
        { connected := true, audio := none, time_us := 120000 },
        { connected := true, audio := some 7, time_us := 140000 }] :
        List app.ExecInput), i.connected = true) ∧
    (app.runStreaming
        { current := app.AppState.kStreamingAudio, sequence_number := 0,
          led_on := false }
        [{ connected := true, audio := some 5, time_us := 100000 },
          { connected := true, audio := none, time_us := 120000 },
          { connected := true, audio := some 7, time_us := 140000 }]).map
        ble.AudioPacket.sequence =
      (List.range
          (app.runStreaming
              { current := app.AppState.kStreamingAudio, sequence_number := 0,
                led_on := false }
              [{ connected := true, audio := some 5, time_us := 100000 },
                { connected := true, audio := none, time_us := 120000 },
                { connected := true, audio := some 7, time_us := 140000 }]).length).map
        (· % 2 ^ 16) :=
  ⟨by decide,
    (C4_sequence_numbers
      { current := app.AppState.kStreamingAudio, sequence_number := 0,
        led_on := false }
      [{ connected := true, audio := some 5, time_us := 100000 },
        { connected := true, audio := none, time_us := 120000 },
        { connected := true, audio := some 7, time_us := 140000 }]
      rfl (by decide)).2.1⟩

/-- C5 (counterexample): `FatalError` is not terminal with respect to
`SetState`: from `FatalError`, a transition request naming
`WaitingForConnection` (exactly what the BLE disconnect callback issues)
moves the machine out of `FatalError`, because `SetState` has no guard on
the current state. -/
theorem C5_fatal_not_terminal_counterexample :
    (app.Application.SetState
        { current := app.AppState.kFatalError, sequence_number := 0,
          led_on := true }
        app.AppState.kWaitingForConnection).1.current =
      app.AppState.kWaitingForConnection ∧
    (app.Application.SetState
        { current := app.AppState.kFatalError, sequence_number := 0,
          led_on := true }
        app.AppState.kWaitingForConnection).1.current ≠
      app.AppState.kFatalError := by
  decide

/-- C5 (amended): once in `FatalError`, the state's own `Execute` performs
only the failure indication (the LED blink dictated by `led_on_`) and
never requests a transition, so the machine stays in `FatalError` as long
as no external `SetState` call with a different recognized target arrives;
a `FatalError`-targeted request is a no-op.  `SetState` itself, however,
does not guard the exit, so terminality holds only in the absence of such
external requests. -/
theorem C5_fatal_error_execute (m : app.Machine)
    (h : m.current = app.AppState.kFatalError) :
    (app.FatalErrorState.Execute m).2.2 = none ∧
    (app.FatalErrorState.Execute m).1.current = app.AppState.kFatalError ∧
    (app.FatalErrorState.Execute m).2.1 =
      (if m.led_on then [app.LedCall.setAndRefreshColor 0 255 0 0]
        else [app.LedCall.turnOff]) ∧
    app.Application.SetState m app.AppState.kFatalError = (m, []) := by
  refine ⟨rfl, h, rfl, ?_⟩
  unfold app.Application.SetState
  rw [if_pos h]

/-- C5 (witness): the amended behavior at the concrete machine sitting in
`FatalError` with the LED currently on. -/
theorem C5_fatal_error_execute_witness :
    (app.FatalErrorState.Execute
        { current := app.AppState.kFatalError, sequence_number := 0,
          led_on := true }).2.2 = none ∧
    (app.FatalErrorState.Execute
        { current := app.AppState.kFatalError, sequence_number := 0,
          led_on := true }).1.current = app.AppState.kFatalError ∧
    (app.FatalErrorState.Execute
        { current := app.AppState.kFatalError, sequence_number := 0,
          led_on := true }).2.1 =
      [app.LedCall.setAndRefreshColor 0 255 0 0] ∧
    app.Application.SetState
        { current := app.AppState.kFatalError, sequence_number := 0,
          led_on := true }
        app.AppState.kFatalError =
      ({ current := app.AppState.kFatalError, sequence_number := 0,
          led_on := true }, []) :=
  C5_fatal_error_execute
    { current := app.AppState.kFatalError, sequence_number := 0,
      led_on := true } rfl

/-- C6: a transition request whose target equals the current state's enum
is a complete no-op: `SetState` returns with the machine unchanged (in
particular the streaming sequence counter and the fatal-error LED flag are
untouched) and invokes no `OnExit` or `OnEnter` hook. -/
theorem C6_self_transition_noop (m : app.Machine) :
    app.Application.SetState m m.current = (m, []) := by
  unfold app.Application.SetState
  rw [if_pos rfl]

/-- C7 (counterexample): an unrecognized target is not always routed to
`FatalError`: when the machine still sits in `Uninitialized` and the
request names `Uninitialized`, the self-transition guard returns first and
the request is ignored, leaving the state unchanged. -/
theorem C7_unrecognized_target_counterexample :
    app.Application.SetState
        { current := app.AppState.kUninitialized, sequence_number := 0,
          led_on := false }
        app.AppState.kUninitialized =
      ({ current := app.AppState.kUninitialized, sequence_number := 0,
          led_on := false }, []) ∧
    (app.Application.SetState
        { current := app.AppState.kUninitialized, sequence_number := 0,
          led_on := false }
        app.AppState.kUninitialized).1.current ≠
      app.AppState.kFatalError := by
  decide

/-- C7 (amended): a transition request whose target is not one of the four
recognized states (`kUninitialized` or `kInitializing`, i.e. the
`default` branch of the switch), and which differs from the current
state's enum (so the self-transition guard does not return first), routes
the machine to `FatalError`, running the exit hook of the old state and
the enter hook of `FatalError`. -/
theorem C7_unrecognized_routes_to_fatal (m : app.Machine) (t : app.AppState)
    (hunrec : t = app.AppState.kUninitialized ∨ t = app.AppState.kInitializing)
    (hne : m.current ≠ t) :
    app.Application.SetState m t =
      ({ current := app.AppState.kFatalError,
          sequence_number := m.sequence_number, led_on := true },
        [app.HookCall.onExit m.current,
          app.HookCall.onEnter app.AppState.kFatalError]) := by
  unfold app.Application.SetState
  rw [if_neg hne]
  rcases hunrec with rfl | rfl <;> rfl

/-- C7 (witness): the amended routing at a concrete machine in
`Streaming` receiving a request for the unrecognized `kInitializing`. -/
theorem C7_unrecognized_routes_to_fatal_witness :
    app.Application.SetState
        { current := app.AppState.kStreamingAudio, sequence_number := 5,
          led_on := false }
        app.AppState.kInitializing =
      ({ current := app.AppState.kFatalError, sequence_number := 5,
          led_on := true },
        [app.HookCall.onExit app.AppState.kStreamingAudio,
          app.HookCall.onEnter app.AppState.kFatalError]) :=
  C7_unrecognized_routes_to_fatal
    { current := app.AppState.kStreamingAudio, sequence_number := 5,
      led_on := false }
    app.AppState.kInitializing (Or.inr rfl) (by decide)

/-- Bounds on the result of `std::clamp(v, lo, hi)` when `lo ≤ hi`. -/
lemma clampQ_mem (v lo hi : ℚ) (h : lo ≤ hi) :
    lo ≤ audio.clampQ v lo hi ∧ audio.clampQ v lo hi ≤ hi := by
  unfold audio.clampQ
  split_ifs <;> constructor <;> linarith

/-- Bounds on the truncation of the clamped scaled feature. -/
lemma floor_clamp_mem (v : ℚ) :
    0 ≤ ⌊audio.clampQ v 0 127⌋ ∧ ⌊audio.clampQ v 0 127⌋ ≤ 127 := by
  have hcl := clampQ_mem v 0 127 (by norm_num)
  constructor
  · exact Int.le_floor.mpr (by exact_mod_cast hcl.1)
  · have hle : (⌊audio.clampQ v 0 127⌋ : ℚ) ≤ (127 : ℚ) :=
      le_trans (Int.floor_le _) hcl.2
    exact_mod_cast hle

/-- C8: every successful call of `AudioSource::GetFeature` (for any
behavior of the floating-point `sqrt`/`log10`) yields a feature in
`[0, 127]`, because the scaled decibel value passes through
`std::clamp(·, 0, 127)` before the truncating cast; and a call in which
the read succeeds with zero samples yields feature 0 together with
`ESP_OK`, not an error. -/
theorem C8_feature_bounds :
    (∀ (sqrtD log10D : ℚ → ℚ) (ret : EspErr) (samples : List Int) (f : Int),
      audio.AudioSource.GetFeature sqrtD log10D ret samples = (EspErr.ok, f) →
      0 ≤ f ∧ f ≤ 127) ∧
    (∀ sqrtD log10D : ℚ → ℚ,
      audio.AudioSource.GetFeature sqrtD log10D EspErr.ok [] = (EspErr.ok, 0)) := by
  constructor
  · intro sqrtD log10D ret samples f h
    unfold audio.AudioSource.GetFeature at h
    split_ifs at h with hcond
    · obtain ⟨h1, h2⟩ := Prod.mk.injEq .. ▸ h
      omega
    · dsimp only at h
      rw [Prod.mk.injEq] at h
      obtain ⟨-, h2⟩ := h
      rw [← h2]
      exact floor_clamp_mem _
  · intro sqrtD log10D
    rfl

/-- C8 (witness): with both float oracles returning 0, a successful
two-sample read yields the in-range feature 0, and the zero-sample path
yields `(ESP_OK, 0)`. -/
theorem C8_feature_bounds_witness :
    audio.AudioSource.GetFeature (fun _ => 0) (fun _ => 0) EspErr.ok [3, -4] =
      (EspErr.ok, 0) ∧
    (0 ≤ (0 : Int) ∧ (0 : Int) ≤ 127) ∧
    audio.AudioSource.GetFeature (fun _ => 0) (fun _ => 0) EspErr.ok [] =
      (EspErr.ok, 0) := by
  have hEq : audio.AudioSource.GetFeature (fun _ => 0) (fun _ => 0) EspErr.ok
      [3, -4] = (EspErr.ok, 0) := by
    unfold audio.AudioSource.GetFeature
    norm_num [audio.clampQ]
  exact ⟨hEq, C8_feature_bounds.1 _ _ _ _ _ hEq,
    C8_feature_bounds.2 (fun _ => 0) (fun _ => 0)⟩

/-- C9 (counterexample): the advertising-start failure is not observable
by any caller of the entry hook: `WaitingForConnectionState::OnEnter`
returns `void` and discards the `esp_err_t` of `StartAdvertising`, so the
hook's entire observable outcome on a failing start equals the outcome on
a successful start. -/
theorem C9_advertising_error_swallowed :
    app.WaitingForConnectionState.OnEnter false EspErr.fail =
      app.WaitingForConnectionState.OnEnter false EspErr.ok := rfl

/-- C9 (amended): on entry into `WaitingForConnection`, `StartAdvertising`
is called exactly when the device is not already advertising; the result
of the advertising-start call is discarded — the hook returns `void`, and
its observable outcome does not depend on whether the start succeeded, so
failures are only logged inside `StartAdvertising`, never propagated. -/
theorem C9_on_enter_advertising (adv : Bool) (res : EspErr) :
    (adv = false →
      app.WaitingCall.startAdvertising ∈
        (app.WaitingForConnectionState.OnEnter adv res).1) ∧
    (adv = true →
      app.WaitingCall.startAdvertising ∉
        (app.WaitingForConnectionState.OnEnter adv res).1) ∧
    app.WaitingForConnectionState.OnEnter adv res =
      app.WaitingForConnectionState.OnEnter adv EspErr.ok := by
  cases adv <;> simp [app.WaitingForConnectionState.OnEnter]

/-- C9 (witness): the amended statement at the concrete input where the
device is not advertising and the start fails. -/
theorem C9_on_enter_advertising_witness :
    app.WaitingCall.startAdvertising ∈
      (app.WaitingForConnectionState.OnEnter false EspErr.fail).1 ∧
    app.WaitingForConnectionState.OnEnter false EspErr.fail =
      app.WaitingForConnectionState.OnEnter false EspErr.ok :=
  ⟨(C9_on_enter_advertising false EspErr.fail).1 rfl,
    (C9_on_enter_advertising false EspErr.fail).2.2⟩

end SonaFlow
